import Mathlib

/-!
Shallow embedding of `src/jetson/nav/rover.cpp` (the Rover controller of the
mrover navigation stack): the drive/turn control algorithms, `stop`, the
status-update state machine `updateRover` with its hit/miss target-cache
stabilization, and the equality helpers, together with proofs of the
specification's claims about them.

Modelling conventions:
* C++ `double` values are modelled as rationals (`ℚ`); the source performs
  only comparisons, `min`/`max` clamps, sign tests and additions on them,
  all of which rationals model exactly.
* External collaborators that live outside `rover.cpp` — the geodetic
  helpers `mod` and `throughZero` from `utilities.hpp` and the PID
  controller `PidLoop::update` — are taken as function parameters, so each
  theorem quantifies over every possible behaviour of those collaborators.
  The PID controller's internal state is an abstract type `σ` threaded
  through `pidUpdate : σ → ℚ → ℚ → ℚ × σ` (state, current, target ↦
  effort, new state).
* Publishing on the LCM bus is modelled by returning the list of published
  `AutonDriveControl` messages.
* Reading `path().front()` on an empty deque is undefined behaviour in
  C++; the embedding returns `none` for exactly that execution.
-/

set_option autoImplicit false

namespace Rover

/-- A visual target detection `{distance, bearing, id}`; a distance equal
to the configured sentinel (`noTargetDist`, e.g. `-1`) means "no
detection". -/
structure Target where
  distance : ℚ
  bearing : ℚ
  id : Int
  deriving DecidableEq

/-- The empty-target sentinel `{-1, 0, 0}` used by the `RoverStatus`
constructor and by cache eviction. -/
def emptyTarget : Target := ⟨-1, 0, 0⟩

/-- An obstacle message; only `bearing` and `distance` take part in
equality, `id` is carried but unused.  (`{0, 0, -1.0}` is the empty
obstacle: distance `-1`.) -/
structure Obstacle where
  bearing : ℚ
  id : Int
  distance : ℚ
  deriving DecidableEq

/-- Odometry in degree + minute form plus current heading in degrees. -/
structure Odometry where
  latitude_deg : Int
  latitude_min : ℚ
  longitude_deg : Int
  longitude_min : ℚ
  bearing_deg : ℚ
  deriving DecidableEq

/-- A course waypoint; `search`/`gate` flags mark the waypoints counted by
`mPathTargets`. -/
structure Waypoint where
  id : Int
  search : Bool
  gate : Bool
  deriving DecidableEq

/-- The navigation states this file inspects: `Off` (constructor default),
the two turn-around-obstacle states, and everything else collapsed to
`Other`. -/
inductive NavState
  | Off
  | TurnAroundObs
  | SearchTurnAroundObs
  | Other
  deriving DecidableEq

/-- Result of `Rover::drive`. -/
inductive DriveStatus
  | Arrived
  | OnCourse
  | OffCourse
  deriving DecidableEq

/-- An outbound wheel-velocity command (`AutonDriveControl`). -/
structure AutonDriveControl where
  left_percent_velocity : ℚ
  right_percent_velocity : ℚ
  deriving DecidableEq

/-- `Rover::RoverStatus`: the aggregate snapshot mutated in place by the
controller.  The course is modelled as its ordered waypoint list and the
auton state as its `is_auton` flag. -/
structure RoverStatus where
  mCurrentState : NavState
  mAutonState : Bool
  mCourse : List Waypoint
  mPath : List Waypoint
  mPathTargets : Nat
  mObstacle : Obstacle
  mOdometry : Odometry
  mTargetLeft : Target
  mTargetRight : Target
  mCTargetLeft : Target
  mCTargetRight : Target
  countLeftHits : Int
  countRightHits : Int
  countLeftMisses : Int
  countRightMisses : Int
  deriving DecidableEq

/-- The `navThresholds` configuration block read at construction. -/
structure NavThresholds where
  waypointDistance : ℚ
  targetDistance : ℚ
  drivingBearing : ℚ
  turningBearing : ℚ
  minTurningEffort : ℚ
  noTargetDist : ℚ
  cacheMissMax : ℚ
  deriving DecidableEq

/-- `Rover::isEqual(Obstacle, Obstacle)`: compares `distance` and
`bearing` only. -/
def isEqualObstacle (o1 o2 : Obstacle) : Bool :=
  if o1.distance = o2.distance ∧ o1.bearing = o2.bearing then true else false

/-- `Rover::isEqual(Odometry, Odometry)`: compares all five coordinate
fields. -/
def isEqualOdometry (o1 o2 : Odometry) : Bool :=
  if o1.latitude_deg = o2.latitude_deg ∧ o1.latitude_min = o2.latitude_min ∧
     o1.longitude_deg = o2.longitude_deg ∧ o1.longitude_min = o2.longitude_min ∧
     o1.bearing_deg = o2.bearing_deg then true else false

/-- `Rover::isEqual(Target, Target)`: compares `distance` and `bearing`;
`id` is intentionally excluded. -/
def isEqualTarget (t1 t2 : Target) : Bool :=
  if t1.distance = t2.distance ∧ t1.bearing = t2.bearing then true else false

/-- `Rover::isTurningAroundObstacle`: true exactly in `TurnAroundObs` and
`SearchTurnAroundObs`. -/
def isTurningAroundObstacle : NavState → Bool
  | NavState.TurnAroundObs => true
  | NavState.SearchTurnAroundObs => true
  | _ => false

/-- The path-rebuild loop of `RoverStatus::operator=`: starting from an
emptied path and a zeroed counter, push every course waypoint in order and
count those flagged `search` or `gate`.  Returns (new path, new
`mPathTargets`). -/
def rebuildPath (course : List Waypoint) : List Waypoint × Nat :=
  course.foldl
    (fun acc wp => (acc.1 ++ [wp], if wp.search || wp.gate then acc.2 + 1 else acc.2))
    ([], 0)

/-- `RoverStatus::operator=`: field-by-field copy with the path rebuilt
from the incoming course.  Note that the source copies `countLeftMisses`
and `countRightMisses` but neither hit counter nor `mCurrentState`. -/
def assignStatus (old new : RoverStatus) : RoverStatus :=
  { old with
    mAutonState := new.mAutonState
    mCourse := new.mCourse
    mPath := (rebuildPath new.mCourse).1
    mPathTargets := (rebuildPath new.mCourse).2
    mObstacle := new.mObstacle
    mOdometry := new.mOdometry
    mTargetLeft := new.mTargetLeft
    mTargetRight := new.mTargetRight
    mCTargetLeft := new.mCTargetLeft
    mCTargetRight := new.mCTargetRight
    countLeftMisses := new.countLeftMisses
    countRightMisses := new.countRightMisses }

/-- `Rover::drive(distance, bearing, target)`.  Arguments `modf` and `tz`
stand for the external `mod` and `throughZero` helpers (the latter applied
to the normalized destination bearing and the rover's heading), `pidUpdate`
for `PidLoop::update` with abstract state `σ`, and `odomBearing` for
`mRoverStatus.odometry().bearing_deg`.  Returns the drive status, the list
of published commands and the PID state after the call. -/
def drive {σ : Type} (cfg : NavThresholds) (pidUpdate : σ → ℚ → ℚ → ℚ × σ)
    (modf tz : ℚ → ℚ → ℚ) (ps : σ) (odomBearing distance bearing : ℚ)
    (target : Bool) : DriveStatus × List AutonDriveControl × σ :=
  if (target = false ∧ distance < cfg.waypointDistance) ∨
     (target = true ∧ distance < cfg.targetDistance) then
    (DriveStatus.Arrived, [], ps)
  else
    let destinationBearing := tz (modf bearing 360) odomBearing
    if |destinationBearing - odomBearing| < cfg.drivingBearing then
      let p := pidUpdate ps odomBearing destinationBearing
      let left_vel := min 1 (max 0 (1 + p.1))
      let right_vel := min 1 (max 0 (1 - p.1))
      (DriveStatus.OnCourse, [⟨left_vel, right_vel⟩], p.2)
    else
      (DriveStatus.OffCourse, [], ps)

/-- `Rover::turn(bearing)`.  Same parameter conventions as `drive`;
`navState` is `mRoverStatus.currentState()`.  Returns the "finished
turning" flag, the published commands, and the PID state after the call. -/
def turn {σ : Type} (cfg : NavThresholds) (pidUpdate : σ → ℚ → ℚ → ℚ × σ)
    (modf tz : ℚ → ℚ → ℚ) (navState : NavState) (ps : σ)
    (odomBearing bearing0 : ℚ) : Bool × List AutonDriveControl × σ :=
  let bearing := tz (modf bearing0 360) odomBearing
  let turningBearingThreshold :=
    if isTurningAroundObstacle navState = true then 0 else cfg.turningBearing
  if |bearing - odomBearing| ≤ turningBearingThreshold then
    (true, [], ps)
  else
    let p := pidUpdate ps odomBearing bearing
    let rawEffort := p.1
    let minTurningEffort :=
      cfg.minTurningEffort * (if rawEffort < 0 then -1 else 1)
    let turningEffort :=
      if isTurningAroundObstacle navState = true ∧ |rawEffort| < minTurningEffort then
        minTurningEffort
      else rawEffort
    let left_vel := max (min 1 turningEffort) (-1)
    let right_vel := max (min 1 (-turningEffort)) (-1)
    (false, [⟨left_vel, right_vel⟩], p.2)

/-- `Rover::stop`: unconditionally publish a zero/zero command. -/
def stop : List AutonDriveControl := [⟨0, 0⟩]

/-- Lines 294–334 of `updateRover` (the left/right hit-miss pass, run after
the live fields were refreshed): if the left target is detected, bump or
reset the left hit counter against the id at the head of the path, promote
the left cache at ≥ 3 hits, and cache or miss the right target; if no left
detection, count a miss on both sides and zero both hit counters.  Reading
the head of an empty path is the C++ `front()` undefined behaviour and
yields `none`. -/
def leftPass (cfg : NavThresholds) (st : RoverStatus) : Option RoverStatus :=
  if st.mTargetLeft.distance ≠ cfg.noTargetDist then
    match st.mPath with
    | [] => none
    | wp :: _ =>
      let st1 :=
        if st.mTargetLeft.id = wp.id then
          { st with countLeftHits := st.countLeftHits + 1 }
        else
          { st with countLeftHits := 0 }
      let st2 :=
        if st1.countLeftHits ≥ (3 : Int) then
          { st1 with mCTargetLeft := st1.mTargetLeft, countLeftMisses := 0 }
        else st1
      let st3 :=
        if st2.mTargetRight.distance ≠ cfg.noTargetDist then
          { st2 with mCTargetRight := st2.mTargetRight, countRightMisses := 0 }
        else
          { st2 with countRightMisses := st2.countRightMisses + 1 }
      some st3
  else
    some { st with
            countLeftMisses := st.countLeftMisses + 1
            countRightMisses := st.countRightMisses + 1
            countLeftHits := 0
            countRightHits := 0 }

/-- Lines 336–352 of `updateRover`: evict a cache side once its miss
counter exceeds `cacheMissMax` (an `int` counter compared against the
`double` config value). -/
def evictPass (cfg : NavThresholds) (st : RoverStatus) : RoverStatus :=
  let st1 :=
    if (st.countLeftMisses : ℚ) > cfg.cacheMissMax then
      { st with countLeftMisses := 0, countLeftHits := 0, mCTargetLeft := emptyTarget }
    else st
  if (st1.countRightMisses : ℚ) > cfg.cacheMissMax then
    { st1 with countRightMisses := 0, countRightHits := 0, mCTargetRight := emptyTarget }
  else st1

/-- `Rover::updateRover(newRoverStatus)`: the auton-flag state machine.
Returns the stored status after the call and the boolean result, or `none`
when the On→On branch hits the unguarded `path().front()` read on an empty
path. -/
def updateRover (cfg : NavThresholds) (old new : RoverStatus) :
    Option (RoverStatus × Bool) :=
  if old.mAutonState = true then
    if new.mAutonState = false then
      some ({ old with mAutonState := new.mAutonState }, true)
    else if isEqualObstacle old.mObstacle new.mObstacle = false ∨
            isEqualOdometry old.mOdometry new.mOdometry = false ∨
            isEqualTarget old.mTargetLeft new.mTargetLeft = false ∨
            isEqualTarget old.mTargetRight new.mTargetRight = false then
      let st := { old with
                   mObstacle := new.mObstacle
                   mOdometry := new.mOdometry
                   mTargetLeft := new.mTargetLeft
                   mTargetRight := new.mTargetRight }
      (leftPass cfg st).map (fun st1 => (evictPass cfg st1, true))
    else
      some (old, true)
  else
    if new.mAutonState = true then
      some (assignStatus old new, true)
    else
      some (old, false)

/-! Concrete values used by the witness and counterexample theorems. -/

/-- A concrete configuration: `waypointDistance = 1`, `targetDistance = 1/2`,
`drivingBearing = 45`, `turningBearing = 30`, `minTurningEffort = 1/2`,
`noTargetDist = -1`, `cacheMissMax = 5`. -/
def cfgEx : NavThresholds := ⟨1, 1/2, 45, 30, 1/2, -1, 5⟩

/-- A PID behaviour returning the constant effort `-1/100` (realisable with
small gains), with trivial state. -/
def pidSmallNeg : Unit → ℚ → ℚ → ℚ × Unit := fun s _ _ => (-(1/100), s)

/-- A PID behaviour with an `Int` call counter as its state. -/
def pidStep : Int → ℚ → ℚ → ℚ × Int := fun s cur tgt => ((tgt - cur) / 2, s + 1)

/-- Stand-in for `mod` / `throughZero` at inputs where they leave the
bearing unchanged (no wrap, already in `[0, 360)`). -/
def extId : ℚ → ℚ → ℚ := fun a _ => a

/-- Zeroed odometry. -/
def odomZero : Odometry := ⟨0, 0, 0, 0, 0⟩

/-- The empty obstacle `{0, 0, -1.0}`. -/
def emptyObstacle : Obstacle := ⟨0, 0, -1⟩

/-- A rover status as left by the `RoverStatus()` constructor (auton off,
state `Off`, empty targets and obstacle), with all counters zero. -/
def statusOff : RoverStatus :=
  ⟨NavState.Off, false, [], [], 0, emptyObstacle, odomZero,
   emptyTarget, emptyTarget, emptyTarget, emptyTarget, 0, 0, 0, 0⟩

/-- An incoming snapshot with auton enabled, one waypoint, and nonzero hit
and miss counters (`countLeftHits = 5`, `countRightHits = 4`). -/
def snapOnHits5 : RoverStatus :=
  ⟨NavState.Off, true, [⟨7, true, false⟩], [], 0, emptyObstacle, odomZero,
   emptyTarget, emptyTarget, emptyTarget, emptyTarget, 5, 4, 2, 1⟩

/-- A five-waypoint course with exactly two waypoints flagged `search`. -/
def courseFive : List Waypoint :=
  [⟨1, true, false⟩, ⟨2, false, false⟩, ⟨3, true, false⟩,
   ⟨4, false, false⟩, ⟨5, false, false⟩]

/-- An incoming snapshot with auton enabled carrying `courseFive`. -/
def snapOnCourse5 : RoverStatus :=
  ⟨NavState.Off, true, courseFive, [], 0, emptyObstacle, odomZero,
   emptyTarget, emptyTarget, emptyTarget, emptyTarget, 0, 0, 0, 0⟩

/-- An auton-enabled status whose path head has id `7`, with a detected
left target of matching id and `countLeftHits = 2`. -/
def stDet : RoverStatus :=
  ⟨NavState.Other, true, [⟨7, true, false⟩], [⟨7, true, false⟩], 1,
   emptyObstacle, odomZero, ⟨5, 10, 7⟩, emptyTarget, emptyTarget,
   emptyTarget, 2, 0, 1, 1⟩

/-- An auton-enabled status equal to its own snapshot (used for the
On→On no-change case). -/
def statusOn : RoverStatus :=
  ⟨NavState.Other, true, courseFive, courseFive, 2, emptyObstacle, odomZero,
   emptyTarget, emptyTarget, emptyTarget, emptyTarget, 0, 0, 0, 0⟩

/-- A status whose left miss counter (`7`) exceeds `cacheMissMax = 5`
while the right miss counter (`3`) stays within bounds. -/
def stMissy : RoverStatus :=
  ⟨NavState.Other, true, [], [], 0, emptyObstacle, odomZero,
   emptyTarget, emptyTarget, ⟨2, 0, 4⟩, ⟨3, 1, 9⟩, 1, 2, 7, 3⟩

/-- An auton-on status with an empty path. -/
def stOnEmptyPath : RoverStatus :=
  ⟨NavState.Other, true, [], [], 0, emptyObstacle, odomZero,
   emptyTarget, emptyTarget, emptyTarget, emptyTarget, 0, 0, 0, 0⟩

/-- An auton-on snapshot with a detected left target (distance `4`) and
odometry that differs from `odomZero`. -/
def snapDetected : RoverStatus :=
  ⟨NavState.Other, true, [], [], 0, emptyObstacle, ⟨0, 0, 0, 0, 90⟩,
   ⟨4, 0, 7⟩, emptyTarget, emptyTarget, emptyTarget, 0, 0, 0, 0⟩

/-! Helper lemmas shared between the claim theorems. -/

/-- Arithmetic facts about the drive velocity mapping
`(clamp(1+e,0,1), clamp(1−e,0,1))`. -/
theorem clamp_vel_facts (e : ℚ) :
    0 ≤ min 1 (max 0 (1 + e)) ∧ min 1 (max 0 (1 + e)) ≤ 1 ∧
    0 ≤ min 1 (max 0 (1 - e)) ∧ min 1 (max 0 (1 - e)) ≤ 1 ∧
    max (min 1 (max 0 (1 + e))) (min 1 (max 0 (1 - e))) = 1 ∧
    (0 ≤ e → min 1 (max 0 (1 + e)) = 1) ∧
    (e ≤ 0 → min 1 (max 0 (1 - e)) = 1) ∧
    (|e| ≤ 1 → 0 ≤ e → min 1 (max 0 (1 - e)) = 1 - |e|) ∧
    (|e| ≤ 1 → e ≤ 0 → min 1 (max 0 (1 + e)) = 1 - |e|) := by
  refine ⟨?_, ?_, ?_, ?_, ?_, ?_, ?_, ?_, ?_⟩
  · simp only [min_def, max_def]; split_ifs <;> linarith
  · simp only [min_def, max_def]; split_ifs <;> linarith
  · simp only [min_def, max_def]; split_ifs <;> linarith
  · simp only [min_def, max_def]; split_ifs <;> linarith
  · simp only [min_def, max_def]; split_ifs <;> linarith
  · intro h; simp only [min_def, max_def]; split_ifs <;> linarith
  · intro h; simp only [min_def, max_def]; split_ifs <;> linarith
  · intro habs h
    rw [abs_of_nonneg h] at habs ⊢
    simp only [min_def, max_def]; split_ifs <;> linarith
  · intro habs h
    rw [abs_of_nonpos h] at habs ⊢
    simp only [min_def, max_def]; split_ifs <;> linarith

/-- The fold inside `rebuildPath`, generalized over the accumulator. -/
theorem rebuildPath_go (course : List Waypoint) (acc : List Waypoint × Nat) :
    course.foldl
      (fun acc wp =>
        (acc.1 ++ [wp], if wp.search || wp.gate then acc.2 + 1 else acc.2))
      acc =
    (acc.1 ++ course,
     acc.2 + (course.filter (fun w => w.search || w.gate)).length) := by
  induction course generalizing acc with
  | nil => simp
  | cons wp rest ih =>
    rw [List.foldl_cons, ih]
    by_cases h : (wp.search || wp.gate) = true <;>
      · simp [h, List.filter_cons]
        try omega

/-- `rebuildPath` yields the course itself and its `search || gate`
count. -/
theorem rebuildPath_spec (course : List Waypoint) :
    (rebuildPath course).1 = course ∧
    (rebuildPath course).2 =
      (course.filter (fun w => w.search || w.gate)).length := by
  unfold rebuildPath
  rw [rebuildPath_go]
  simp

/-- The hit/miss pass never touches the course, the path or the target
count. -/
theorem leftPass_preserves (cfg : NavThresholds) (st st1 : RoverStatus)
    (h : leftPass cfg st = some st1) :
    st1.mCourse = st.mCourse ∧ st1.mPath = st.mPath ∧
    st1.mPathTargets = st.mPathTargets := by
  unfold leftPass at h
  split_ifs at h with hdet
  · rcases hp : st.mPath with _ | ⟨wp, rest⟩ <;> rw [hp] at h
    · simp at h
    · simp only [] at h
      split_ifs at h <;> (obtain rfl := Option.some.inj h) <;> simp [hp]
  · obtain rfl := Option.some.inj h
    simp

/-- The eviction pass never touches the course, the path or the target
count. -/
theorem evictPass_preserves (cfg : NavThresholds) (st : RoverStatus) :
    (evictPass cfg st).mCourse = st.mCourse ∧
    (evictPass cfg st).mPath = st.mPath ∧
    (evictPass cfg st).mPathTargets = st.mPathTargets := by
  unfold evictPass
  simp only []
  split_ifs <;> simp

/-- The hit/miss pass is undefined exactly when a left target is detected
while the path is empty (the unguarded `front()` read). -/
theorem leftPass_eq_none_iff (cfg : NavThresholds) (st : RoverStatus) :
    leftPass cfg st = none ↔
      (st.mTargetLeft.distance ≠ cfg.noTargetDist ∧ st.mPath = []) := by
  unfold leftPass
  split_ifs with hdet
  · rcases hp : st.mPath with _ | ⟨wp, rest⟩ <;> simp [hdet]
  · simp [hdet]

/-! Claim theorems. -/

/-- Claim C1: `drive` returns `Arrived` iff the distance is strictly below
the threshold selected by the driving mode (`targetDistance` when `target`
is true, `waypointDistance` otherwise), for every bearing; and when it
returns `Arrived`, no wheel command is published. -/
theorem drive_arrived_iff {σ : Type} (cfg : NavThresholds)
    (pidUpdate : σ → ℚ → ℚ → ℚ × σ) (modf tz : ℚ → ℚ → ℚ) (ps : σ)
    (odomBearing distance bearing : ℚ) (target : Bool) :
    ((drive cfg pidUpdate modf tz ps odomBearing distance bearing target).1 =
        DriveStatus.Arrived ↔
      (if target then distance < cfg.targetDistance
       else distance < cfg.waypointDistance)) ∧
    ((drive cfg pidUpdate modf tz ps odomBearing distance bearing target).1 =
        DriveStatus.Arrived →
      (drive cfg pidUpdate modf tz ps odomBearing distance bearing target).2.1 = []) := by
  unfold drive
  simp only []
  cases target <;> split_ifs <;> simp_all

/-- Claim C6: `drive` publishes exactly one command when it returns
`OnCourse` and none otherwise, and a non-`OnCourse` outcome (in particular
`OffCourse`) leaves the PID controller state untouched. -/
theorem drive_publish_discipline {σ : Type} (cfg : NavThresholds)
    (pidUpdate : σ → ℚ → ℚ → ℚ × σ) (modf tz : ℚ → ℚ → ℚ) (ps : σ)
    (odomBearing distance bearing : ℚ) (target : Bool) :
    ((drive cfg pidUpdate modf tz ps odomBearing distance bearing target).2.1.length =
      if (drive cfg pidUpdate modf tz ps odomBearing distance bearing target).1 =
          DriveStatus.OnCourse then 1 else 0) ∧
    ((drive cfg pidUpdate modf tz ps odomBearing distance bearing target).1 ≠
        DriveStatus.OnCourse →
      (drive cfg pidUpdate modf tz ps odomBearing distance bearing target).2.2 = ps) := by
  unfold drive
  simp only []
  split_ifs <;> simp_all

/-- Claim C5: whenever `drive` publishes a course-correction command built
from PID effort `e`, the command is `left = clamp(1+e,0,1)`,
`right = clamp(1−e,0,1)`; both lie in `[0,1]`, their maximum is `1`, the
wheel on the turn side is held at `1`, and the opposite wheel equals
`1 − |e|` whenever `|e| ≤ 1`. -/
theorem drive_velocity_map {σ : Type} (cfg : NavThresholds)
    (pidUpdate : σ → ℚ → ℚ → ℚ × σ) (modf tz : ℚ → ℚ → ℚ) (ps : σ)
    (odomBearing distance bearing : ℚ) (target : Bool)
    (cmd : AutonDriveControl) (e : ℚ)
    (he : e = (pidUpdate ps odomBearing (tz (modf bearing 360) odomBearing)).1)
    (hpub : (drive cfg pidUpdate modf tz ps odomBearing distance bearing target).2.1 =
      [cmd]) :
    cmd.left_percent_velocity = min 1 (max 0 (1 + e)) ∧
    cmd.right_percent_velocity = min 1 (max 0 (1 - e)) ∧
    0 ≤ cmd.left_percent_velocity ∧ cmd.left_percent_velocity ≤ 1 ∧
    0 ≤ cmd.right_percent_velocity ∧ cmd.right_percent_velocity ≤ 1 ∧
    max cmd.left_percent_velocity cmd.right_percent_velocity = 1 ∧
    (0 ≤ e → cmd.left_percent_velocity = 1) ∧
    (e ≤ 0 → cmd.right_percent_velocity = 1) ∧
    (|e| ≤ 1 → 0 ≤ e → cmd.right_percent_velocity = 1 - |e|) ∧
    (|e| ≤ 1 → e ≤ 0 → cmd.left_percent_velocity = 1 - |e|) := by
  unfold drive at hpub
  simp only [] at hpub
  split_ifs at hpub with h1 h2
  simp only [List.cons.injEq, and_true] at hpub
  subst hpub
  dsimp only
  rw [← he]
  exact ⟨rfl, rfl, clamp_vel_facts e⟩

/-- Claim C4 (code bug): while turning around an obstacle with heading
deviation beyond the (zero) tolerance, a negative PID effort whose
magnitude is below `minTurningEffort` is published unchanged — the
minimum-magnitude floor never fires for negative efforts, because
`fabs(turningEffort)` (non-negative) is compared against the *negative*
signed minimum `minTurningEffort * (-1)`.  Here the raw effort `-1/100` is
published although `minTurningEffort = 1/2`. -/
theorem turn_negative_effort_floor_missed :
    turn cfgEx pidSmallNeg extId extId NavState.TurnAroundObs () 350 340 =
      (false, [⟨-(1/100), 1/100⟩], ()) ∧
    |(-(1/100) : ℚ)| < cfgEx.minTurningEffort ∧
    (0 : ℚ) < cfgEx.minTurningEffort := by
  refine ⟨?_, by rw [show |(-(1/100) : ℚ)| = 1/100 by norm_num]; norm_num [cfgEx],
    by norm_num [cfgEx]⟩
  norm_num [turn, extId, pidSmallNeg, cfgEx, isTurningAroundObstacle]
  rw [if_neg (by rw [show |(1/100 : ℚ)| = 1/100 by norm_num]; norm_num :
    ¬ (|(1/100 : ℚ)| < -(1/2)))]
  norm_num [min_def, max_def]

/-- Claim C2: in the detected-left branch of the cache-stabilization pass,
the left hit counter is incremented when the live left target's id equals
the id of the waypoint at the head of the path and reset to `0` otherwise;
the live left target is promoted into the left cache slot (and the left
miss counter reset to `0`) exactly when the post-update hit counter has
reached `3`, and a mismatched detection never promotes. -/
theorem leftPass_hit_promotion (cfg : NavThresholds) (st : RoverStatus)
    (wp : Waypoint) (rest : List Waypoint)
    (hdet : st.mTargetLeft.distance ≠ cfg.noTargetDist)
    (hpath : st.mPath = wp :: rest) :
    ∃ st1, leftPass cfg st = some st1 ∧
      st1.countLeftHits =
        (if st.mTargetLeft.id = wp.id then st.countLeftHits + 1 else 0) ∧
      st1.mCTargetLeft =
        (if st1.countLeftHits ≥ (3 : Int) then st.mTargetLeft else st.mCTargetLeft) ∧
      st1.countLeftMisses =
        (if st1.countLeftHits ≥ (3 : Int) then 0 else st.countLeftMisses) ∧
      (st.mTargetLeft.id ≠ wp.id →
        st1.countLeftHits = 0 ∧ st1.mCTargetLeft = st.mCTargetLeft) := by
  unfold leftPass
  rw [if_pos hdet, hpath]
  simp only []
  split_ifs <;> simp_all
  all_goals exact ⟨by rw [if_neg (by omega)], by rw [if_neg (by omega)]⟩

/-- Claim C3: the eviction check at the end of the cache-stabilization
pass overwrites a side's cache slot with the empty target and zeroes both
of that side's counters exactly when that side's miss counter exceeds
`cacheMissMax`; a side at or below the maximum keeps its cache slot and
its miss counter. -/
theorem evictPass_eviction (cfg : NavThresholds) (st : RoverStatus) :
    (((st.countLeftMisses : ℚ) > cfg.cacheMissMax →
       (evictPass cfg st).mCTargetLeft = emptyTarget ∧
       (evictPass cfg st).countLeftHits = 0 ∧
       (evictPass cfg st).countLeftMisses = 0) ∧
     (¬ (st.countLeftMisses : ℚ) > cfg.cacheMissMax →
       (evictPass cfg st).mCTargetLeft = st.mCTargetLeft ∧
       (evictPass cfg st).countLeftMisses = st.countLeftMisses)) ∧
    (((st.countRightMisses : ℚ) > cfg.cacheMissMax →
       (evictPass cfg st).mCTargetRight = emptyTarget ∧
       (evictPass cfg st).countRightHits = 0 ∧
       (evictPass cfg st).countRightMisses = 0) ∧
     (¬ (st.countRightMisses : ℚ) > cfg.cacheMissMax →
       (evictPass cfg st).mCTargetRight = st.mCTargetRight ∧
       (evictPass cfg st).countRightMisses = st.countRightMisses)) := by
  unfold evictPass
  simp only []
  split_ifs <;> simp_all

/-- Claim C7: after an Off→On transition of `updateRover`, the rebuilt
path is exactly the incoming course's waypoints in order, and
`mPathTargets` equals the number of waypoints of the adopted course whose
`search` or `gate` flag is set. -/
theorem updateRover_off_on_pathTargets (cfg : NavThresholds)
    (old new : RoverStatus)
    (hoff : old.mAutonState = false) (hon : new.mAutonState = true) :
    ∃ st, updateRover cfg old new = some (st, true) ∧
      st.mPath = new.mCourse ∧
      st.mPathTargets =
        (new.mCourse.filter (fun w => w.search || w.gate)).length := by
  refine ⟨assignStatus old new, ?_, ?_, ?_⟩
  · simp [updateRover, hoff, hon]
  · simpa [assignStatus] using (rebuildPath_spec new.mCourse).1
  · simpa [assignStatus] using (rebuildPath_spec new.mCourse).2

/-- Claim C8 (amended): the Off→On transition bulk-replaces the stored
status through the assignment operator — auton state, course, obstacle,
odometry, both live targets, both cached targets and both miss counters
take the incoming snapshot's values and the path is rebuilt from the
incoming course — while the hit counters keep their previously stored
values; and no transition that starts from auton-on replaces the course,
the path or the target count. -/
theorem updateRover_off_on_bulk (cfg : NavThresholds) (old new : RoverStatus)
    (hoff : old.mAutonState = false) (hon : new.mAutonState = true) :
    updateRover cfg old new = some (assignStatus old new, true) ∧
    (assignStatus old new).mAutonState = new.mAutonState ∧
    (assignStatus old new).mCourse = new.mCourse ∧
    (assignStatus old new).mObstacle = new.mObstacle ∧
    (assignStatus old new).mOdometry = new.mOdometry ∧
    (assignStatus old new).mTargetLeft = new.mTargetLeft ∧
    (assignStatus old new).mTargetRight = new.mTargetRight ∧
    (assignStatus old new).mCTargetLeft = new.mCTargetLeft ∧
    (assignStatus old new).mCTargetRight = new.mCTargetRight ∧
    (assignStatus old new).countLeftMisses = new.countLeftMisses ∧
    (assignStatus old new).countRightMisses = new.countRightMisses ∧
    (assignStatus old new).countLeftHits = old.countLeftHits ∧
    (assignStatus old new).countRightHits = old.countRightHits ∧
    (assignStatus old new).mPath = new.mCourse ∧
    (∀ old2 new2 st : RoverStatus, ∀ b : Bool,
      old2.mAutonState = true → updateRover cfg old2 new2 = some (st, b) →
      st.mCourse = old2.mCourse ∧ st.mPath = old2.mPath ∧
      st.mPathTargets = old2.mPathTargets) := by
  refine ⟨by simp [updateRover, hoff, hon], rfl, rfl, rfl, rfl, rfl, rfl,
    rfl, rfl, rfl, rfl, rfl, rfl,
    by simpa [assignStatus] using (rebuildPath_spec new.mCourse).1, ?_⟩
  intro old2 new2 st b h2 hupd
  unfold updateRover at hupd
  rw [if_pos h2] at hupd
  simp only [] at hupd
  split_ifs at hupd with hn2 hch
  · have h3 : ({ old2 with mAutonState := new2.mAutonState } : RoverStatus) = st :=
      congrArg Prod.fst (Option.some.inj hupd)
    subst h3
    exact ⟨rfl, rfl, rfl⟩
  · obtain ⟨st1, hst1, heq⟩ := Option.map_eq_some'.mp hupd
    have h3 : evictPass cfg st1 = st := congrArg Prod.fst heq
    subst h3
    obtain ⟨e1, e2, e3⟩ := evictPass_preserves cfg st1
    obtain ⟨l1, l2, l3⟩ := leftPass_preserves cfg _ st1 hst1
    exact ⟨e1.trans l1, e2.trans l2, e3.trans l3⟩
  · have h3 : old2 = st := congrArg Prod.fst (Option.some.inj hupd)
    subst h3
    exact ⟨rfl, rfl, rfl⟩

/-- Claim C8 counterexample: on an Off→On transition whose incoming
snapshot carries `countLeftHits = 5`, the adopted status keeps the stored
hit counter `0` — the hit counters do not take the incoming snapshot's
values. -/
theorem updateRover_off_on_hits_cex :
    snapOnHits5.countLeftHits = 5 ∧
    (updateRover cfgEx statusOff snapOnHits5).map (fun p => p.1.countLeftHits) =
      some 0 ∧
    (updateRover cfgEx statusOff snapOnHits5).map (fun p => p.1.countLeftHits) ≠
      some snapOnHits5.countLeftHits := by
  have h : (updateRover cfgEx statusOff snapOnHits5).map
      (fun p => p.1.countLeftHits) = some 0 := rfl
  exact ⟨rfl, h, by rw [h]; decide⟩

/-- Claim C9: `updateRover` reports "not updated" (`false`) exactly when
both the stored and the incoming auton flags are off; in the On→On case
with no observable difference it still reports `true` and leaves the
stored status untouched. -/
theorem updateRover_return_flag (cfg : NavThresholds)
    (old new st : RoverStatus) (b : Bool)
    (h : updateRover cfg old new = some (st, b)) :
    (b = false ↔ (old.mAutonState = false ∧ new.mAutonState = false)) ∧
    (old.mAutonState = true → new.mAutonState = true →
      isEqualObstacle old.mObstacle new.mObstacle = true →
      isEqualOdometry old.mOdometry new.mOdometry = true →
      isEqualTarget old.mTargetLeft new.mTargetLeft = true →
      isEqualTarget old.mTargetRight new.mTargetRight = true →
      st = old ∧ b = true) := by
  unfold updateRover at h
  simp only [] at h
  split_ifs at h with h1 h2 h3 h4
  · have hb : true = b := congrArg Prod.snd (Option.some.inj h)
    constructor
    · simp [h1, ← hb]
    · intro _ hnew
      rw [h2] at hnew
      simp at hnew
  · obtain ⟨st1, hst1, heq⟩ := Option.map_eq_some'.mp h
    have hb : true = b := congrArg Prod.snd heq
    constructor
    · simp [h1, ← hb]
    · intro _ _ ho hod htl htr
      rcases h3 with hx | hx | hx | hx <;> simp_all
  · have hb : true = b := congrArg Prod.snd (Option.some.inj h)
    have hs : old = st := congrArg Prod.fst (Option.some.inj h)
    constructor
    · simp [h1, ← hb]
    · intro _ _ _ _ _ _
      exact ⟨hs.symm, hb.symm⟩
  · have hb : true = b := congrArg Prod.snd (Option.some.inj h)
    constructor
    · rw [← hb]
      simp [h4]
    · intro hold
      rw [hold] at h1
      simp at h1
  · have hb : false = b := congrArg Prod.snd (Option.some.inj h)
    constructor
    · rw [← hb]
      simp only [Bool.not_eq_true] at h1 h4
      simp [h1, h4]
    · intro hold
      rw [hold] at h1
      simp at h1

/-- Claim C10: the embedded `updateRover` hits the unguarded
`path().front()` read (modelled as `none`) exactly when both auton flags
are on, the incoming snapshot differs from the stored one, the incoming
left target is detected, and the stored path is empty; in every other
situation the update is well-defined. -/
theorem updateRover_none_iff (cfg : NavThresholds) (old new : RoverStatus) :
    updateRover cfg old new = none ↔
      (old.mAutonState = true ∧ new.mAutonState = true ∧
       (isEqualObstacle old.mObstacle new.mObstacle = false ∨
        isEqualOdometry old.mOdometry new.mOdometry = false ∨
        isEqualTarget old.mTargetLeft new.mTargetLeft = false ∨
        isEqualTarget old.mTargetRight new.mTargetRight = false) ∧
       new.mTargetLeft.distance ≠ cfg.noTargetDist ∧
       old.mPath = []) := by
  unfold updateRover
  simp only []
  split_ifs with h1 h2 h3 h4 <;>
    simp_all [Option.map_eq_none', leftPass_eq_none_iff, Bool.not_eq_true]

/-! Witness theorems: each applies its claim theorem at a concrete input. -/

/-- Witness for `drive_arrived_iff`: with `waypointDistance = 1`, a
waypoint-mode call at distance `1/2` arrives and publishes nothing. -/
theorem drive_arrived_iff_witness :
    (drive cfgEx pidStep extId extId 3 0 (1/2) 10 false).1 =
      DriveStatus.Arrived ∧
    (drive cfgEx pidStep extId extId 3 0 (1/2) 10 false).2.1 = [] := by
  have h := drive_arrived_iff cfgEx pidStep extId extId 3 0 (1/2) 10 false
  have h1 : (drive cfgEx pidStep extId extId 3 0 (1/2) 10 false).1 =
      DriveStatus.Arrived := h.1.mpr (by norm_num [cfgEx])
  exact ⟨h1, h.2 h1⟩

/-- Witness for `leftPass_hit_promotion`: a matching detection at
`countLeftHits = 2` promotes the live left target. -/
theorem leftPass_hit_promotion_witness :
    ∃ st1, leftPass cfgEx stDet = some st1 ∧
      st1.countLeftHits =
        (if stDet.mTargetLeft.id = (⟨7, true, false⟩ : Waypoint).id then
          stDet.countLeftHits + 1 else 0) ∧
      st1.mCTargetLeft =
        (if st1.countLeftHits ≥ (3 : Int) then stDet.mTargetLeft
         else stDet.mCTargetLeft) ∧
      st1.countLeftMisses =
        (if st1.countLeftHits ≥ (3 : Int) then 0 else stDet.countLeftMisses) ∧
      (stDet.mTargetLeft.id ≠ (⟨7, true, false⟩ : Waypoint).id →
        st1.countLeftHits = 0 ∧ st1.mCTargetLeft = stDet.mCTargetLeft) :=
  leftPass_hit_promotion cfgEx stDet ⟨7, true, false⟩ [] (by decide) rfl

/-- Witness for `evictPass_eviction`: left misses `7 > 5` evicts the left
cache, right misses `3 ≤ 5` keeps the right cache. -/
theorem evictPass_eviction_witness :
    (evictPass cfgEx stMissy).mCTargetLeft = emptyTarget ∧
    (evictPass cfgEx stMissy).countLeftMisses = 0 ∧
    (evictPass cfgEx stMissy).mCTargetRight = stMissy.mCTargetRight := by
  have h := evictPass_eviction cfgEx stMissy
  exact ⟨(h.1.1 (by decide)).1, (h.1.1 (by decide)).2.2, (h.2.2 (by decide)).1⟩

/-- Witness for `drive_velocity_map`: effort `-1/100` yields the command
`(99/100, 1)`, whose components are in `[0,1]` with maximum `1`. -/
theorem drive_velocity_map_witness :
    (0 : ℚ) ≤ (⟨99/100, 1⟩ : AutonDriveControl).left_percent_velocity ∧
    max (⟨99/100, 1⟩ : AutonDriveControl).left_percent_velocity
        (⟨99/100, 1⟩ : AutonDriveControl).right_percent_velocity = 1 := by
  have hpub : (drive cfgEx pidSmallNeg extId extId () 0 5 10 false).2.1 =
      [⟨99/100, 1⟩] := by
    norm_num [drive, cfgEx, pidSmallNeg, extId, min_def, max_def]
  have h := drive_velocity_map cfgEx pidSmallNeg extId extId () 0 5 10 false
      ⟨99/100, 1⟩ (-(1/100)) rfl hpub
  exact ⟨h.2.2.1, h.2.2.2.2.2.2.1⟩

/-- Witness for `drive_publish_discipline`: an `OffCourse` call publishes
nothing and leaves the PID state at `3`. -/
theorem drive_publish_discipline_witness :
    (drive cfgEx pidStep extId extId 3 0 5 100 false).2.1.length = 0 ∧
    (drive cfgEx pidStep extId extId 3 0 5 100 false).2.2 = 3 := by
  have h := drive_publish_discipline cfgEx pidStep extId extId 3 0 5 100 false
  have hs : (drive cfgEx pidStep extId extId 3 0 5 100 false).1 =
      DriveStatus.OffCourse := by
    norm_num [drive, cfgEx, extId]
  refine ⟨?_, h.2 (by rw [hs]; decide)⟩
  rw [h.1, hs]
  decide

/-- Witness for `updateRover_off_on_pathTargets`: a five-waypoint course
with two `search` flags yields `mPathTargets = 2`. -/
theorem updateRover_off_on_pathTargets_witness :
    (∃ st, updateRover cfgEx statusOff snapOnCourse5 = some (st, true) ∧
      st.mPath = snapOnCourse5.mCourse ∧
      st.mPathTargets =
        (snapOnCourse5.mCourse.filter (fun w => w.search || w.gate)).length) ∧
    (snapOnCourse5.mCourse.filter (fun w => w.search || w.gate)).length = 2 :=
  ⟨updateRover_off_on_pathTargets cfgEx statusOff snapOnCourse5 rfl rfl,
   by decide⟩

/-- Witness for `updateRover_off_on_bulk`: the incoming miss counter is
adopted, the stored hit counter is kept. -/
theorem updateRover_off_on_bulk_witness :
    updateRover cfgEx statusOff snapOnHits5 =
      some (assignStatus statusOff snapOnHits5, true) ∧
    (assignStatus statusOff snapOnHits5).countLeftMisses =
      snapOnHits5.countLeftMisses ∧
    (assignStatus statusOff snapOnHits5).countLeftHits =
      statusOff.countLeftHits := by
  have h := updateRover_off_on_bulk cfgEx statusOff snapOnHits5 rfl rfl
  obtain ⟨ha, -, -, -, -, -, -, -, -, hm, -, hh, -, -, -⟩ := h
  exact ⟨ha, hm, hh⟩

/-- Witness for `updateRover_return_flag`: an On→On call with an unchanged
snapshot reports `true` and keeps the stored status. -/
theorem updateRover_return_flag_witness :
    ((true : Bool) = false ↔
      (statusOn.mAutonState = false ∧ statusOn.mAutonState = false)) ∧
    statusOn = statusOn := by
  have h := updateRover_return_flag cfgEx statusOn statusOn statusOn true rfl
  exact ⟨h.1, (h.2 rfl rfl (by decide) (by decide) (by decide) (by decide)).1⟩

/-- Witness for `updateRover_none_iff`: an On→On update with a detected
left target, a changed snapshot and an empty stored path is undefined. -/
theorem updateRover_none_iff_witness :
    updateRover cfgEx stOnEmptyPath snapDetected = none := by
  have h := updateRover_none_iff cfgEx stOnEmptyPath snapDetected
  exact h.mpr ⟨rfl, rfl, by decide, by decide, rfl⟩

end Rover
